import Mathlib

/-!
Verification development for the physics-integration repository.

Shallow embedding conventions:
  - C++ `float` quantities that only pass through ring and order operations
    (the character state machine, physics body settings, scene data) are
    embedded as `ℚ`; the exact comparisons appearing in the claims are never
    at a rounding boundary.
  - The camera/input vector math (character_input.cpp) calls `Normalized()`,
    which needs a square root, so that subsystem is embedded over `ℝ`.
  - Mutation of a C++ struct passed by reference becomes explicit state
    passing: a function from the old struct value to the new one.
  - A C++ function that can throw is embedded with `Except`; the external
    JSON text parser (nlohmann `json::parse`) is represented by an
    `Option Json` input, `none` standing for a parse exception on
    malformed text.
  - Entities are opaque identifiers; an entity's component set is a record
    of `Option` fields (`EntityRec`); a world is the list of its entities
    in creation order.
-/

open scoped Classical

-- ===========================================================================
-- Character state machine data (src/src/components.hpp)
-- ===========================================================================

/-- Mode of the character state machine (`CharacterState::Mode`,
components.hpp). -/
inductive Mode where
  | Grounded
  | Airborne
deriving DecidableEq

/-- Persistent per-character state (`CharacterState`, components.hpp:120-127).
`jump_count` is a C++ `int`, embedded as `Int`; `air_time` and `jump_impulse`
are floats, embedded as `ℚ`. Field defaults follow the C++ initializers. -/
structure CharacterState where
  mode : Mode := .Grounded
  jump_count : Int := 0
  air_time : ℚ := 0
  jump_impulse : ℚ := 0
deriving DecidableEq

/-- Real-valued 3-vector, used for the camera/input math
(`ecs::Vec3` / `JPH::Vec3` as consumed by character_input.cpp). -/
structure RVec3 where
  x : ℝ
  y : ℝ
  z : ℝ

/-- Real-valued 2-vector (`ecs::Vec2`). -/
structure RVec2 where
  x : ℝ
  y : ℝ

/-- Per-frame character intent (`CharacterIntent`, components.hpp:112-117),
written by CharacterInputSystem, read by the state machine and the motor.
Field defaults follow the C++ initializers. -/
structure CharacterIntent where
  move_dir : RVec3 := ⟨0, 0, 0⟩
  look_dir : RVec3 := ⟨0, 0, 1⟩
  jump_requested : Bool := false
  sprint_requested : Bool := false

-- ===========================================================================
-- Character state machine (src/src/systems/character_state.cpp:14-40)
-- ===========================================================================

/-- Ground-contact update, lines 19-26 of character_state.cpp: grounded
resets the air state, airborne accumulates `air_time`. -/
def ground_update (on_ground : Bool) (dt : ℚ) (s : CharacterState) : CharacterState :=
  if on_ground then
    { s with mode := .Grounded, jump_count := 0, air_time := 0 }
  else
    { s with mode := .Airborne, air_time := s.air_time + dt }

/-- Coyote window check, line 29: `jump_count == 0 && air_time < 0.2f`. -/
def can_coyote (s : CharacterState) : Bool :=
  s.jump_count == 0 && decide (s.air_time < 2/10)

/-- Jump eligibility, line 30: `on_ground || can_coyote || (jump_count < 2)`. -/
def can_jump (on_ground : Bool) (s : CharacterState) : Bool :=
  on_ground || can_coyote s || decide (s.jump_count < 2)

/-- Transition function `CharacterStateSystem::apply_state`
(character_state.cpp:14-40). The C++ mutates `state` in place; here each
mutation rebinds `s`. Lines: 17 clears the impulse, 19-26 is `ground_update`,
29-30 the eligibility booleans, 32-39 the jump branch with the coyote
pre-consumption of the grounded slot followed by the unconditional
increment. -/
def apply_state (on_ground : Bool) (dt : ℚ) (intent : CharacterIntent)
    (state : CharacterState) : CharacterState :=
  let s := { state with jump_impulse := 0 }
  let s := ground_update on_ground dt s
  if intent.jump_requested && can_jump on_ground s then
    let s := { s with jump_impulse := if s.jump_count == 0 then 12 else 10 }
    let s := if !on_ground && s.jump_count == 0 then { s with jump_count := 1 } else s
    { s with jump_count := s.jump_count + 1 }
  else
    s

-- ===========================================================================
-- Event queues (src/src/events.hpp)
-- ===========================================================================

/-- Typed frame-scoped event queue (`Events<T>`, events.hpp:13-22), a
`std::vector` buffer. -/
structure Events (α : Type) where
  buffer : List α := []
deriving DecidableEq

/-- Method `Events<T>::send`: push_back. -/
def Events.send {α : Type} (q : Events α) (e : α) : Events α :=
  { buffer := q.buffer ++ [e] }

/-- Method `Events<T>::read`: the current buffer. -/
def Events.readQ {α : Type} (q : Events α) : List α :=
  q.buffer

/-- Method `Events<T>::clear`. -/
def Events.clearQ {α : Type} (_ : Events α) : Events α :=
  { buffer := [] }

/-- JumpEvent (events.hpp:56-60): entity, jump_number (1 = first jump,
2 = double jump), impulse. The header documents it as emitted by
CharacterStateSystem when a jump fires. -/
structure JumpEvent where
  entity : Nat
  jump_number : Int
  impulse : ℚ
deriving DecidableEq

/-- LandEvent (events.hpp:63-65), documented as emitted by
CharacterStateSystem on the Airborne-to-Grounded transition. -/
structure LandEvent where
  entity : Nat
deriving DecidableEq

/-- Per-character body of `CharacterStateSystem::Update`
(character_state.cpp:42-49): the ground state is queried from the external
Jolt `CharacterVirtual` (here the parameter `on_ground`), then `apply_state`
runs on the entity's state. The function body performs no other action: in
particular it never touches the `Events<JumpEvent>` / `Events<LandEvent>`
resources, so both queues pass through unchanged. -/
def characterStateTick (on_ground : Bool) (dt : ℚ) (intent : CharacterIntent)
    (state : CharacterState) (jumpQ : Events JumpEvent) (landQ : Events LandEvent) :
    CharacterState × Events JumpEvent × Events LandEvent :=
  (apply_state on_ground dt intent state, jumpQ, landQ)

/-- Intent carrying a jump request, used as concrete input by witnesses. -/
def jumpIntent : CharacterIntent := { jump_requested := true }

-- ===========================================================================
-- Character intent translator (src/src/systems/character_input.cpp:14-49)
-- ===========================================================================

/-- Squared length, `JPH::Vec3::LengthSq`. -/
def RVec3.lengthSq (v : RVec3) : ℝ := v.x * v.x + v.y * v.y + v.z * v.z

/-- Unit-length scaling, `JPH::Vec3::Normalized` (division by the length). -/
noncomputable def RVec3.normalized (v : RVec3) : RVec3 :=
  ⟨v.x / Real.sqrt v.lengthSq, v.y / Real.sqrt v.lengthSq, v.z / Real.sqrt v.lengthSq⟩

/-- Horizontal flattening, `v.SetY(0)`. -/
def RVec3.setY0 (v : RVec3) : RVec3 := ⟨v.x, 0, v.z⟩

/-- Cross product, `JPH::Vec3::Cross`. -/
def RVec3.cross (a b : RVec3) : RVec3 :=
  ⟨a.y * b.z - a.z * b.y, a.z * b.x - a.x * b.z, a.x * b.y - a.y * b.x⟩

/-- Scalar multiple, `vec * scalar`. -/
def RVec3.smul (c : ℝ) (v : RVec3) : RVec3 := ⟨c * v.x, c * v.y, c * v.z⟩

/-- Componentwise sum. -/
def RVec3.add (a b : RVec3) : RVec3 := ⟨a.x + b.x, a.y + b.y, a.z + b.z⟩

/-- Semantic hardware intent (`PlayerInput`, components.hpp:80-86). -/
structure PlayerInput where
  move_input : RVec2 := ⟨0, 0⟩
  look_input : RVec2 := ⟨0, 0⟩
  jump : Bool := false
  plant_platform : Bool := false
  trigger_val : ℝ := 0

/-- Forward-vector preparation, character_input.cpp:26-35: flatten the camera
forward onto the horizontal plane; renormalize when its squared length
exceeds 0.001, otherwise fall back to the world-forward axis `(0,0,1)`. -/
noncomputable def flattenedForward (view_forward : RVec3) : RVec3 :=
  let fwd := view_forward.setY0
  if fwd.lengthSq > 1/1000 then fwd.normalized else ⟨0, 0, 1⟩

/-- Right-vector preparation, character_input.cpp:27-40: flatten the camera
right vector and renormalize when non-degenerate, otherwise derive it as the
normalized cross product of the prepared forward vector with world-up. -/
noncomputable def flattenedRight (view_forward view_right : RVec3) : RVec3 :=
  let fwd := flattenedForward view_forward
  let right := view_right.setY0
  if right.lengthSq > 1/1000 then right.normalized else (fwd.cross ⟨0, 1, 0⟩).normalized

/-- Per-player body of `CharacterInputSystem::Update`
(character_input.cpp:23-48): project the 2D move input onto the world xz
plane as `move = fwd * move_input.y + right * move_input.x` and write the
intent fields. Note the weighted sum is written to `move_dir` as is — the
source performs no final normalization of `move`. -/
noncomputable def characterInputUpdate (view_forward view_right : RVec3)
    (input : PlayerInput) : CharacterIntent :=
  let fwd := flattenedForward view_forward
  let right := flattenedRight view_forward view_right
  let move := (RVec3.smul input.move_input.y fwd).add (RVec3.smul input.move_input.x right)
  { move_dir := move, look_dir := fwd,
    jump_requested := input.jump, sprint_requested := false }

/-- Modelled from the spec: the spec's claimed post-processing
`move_dir = normalize(forward*move.y + right*move.x)`, where the zero vector
is valid and normalization of a non-zero vector divides by its length. This
definition follows the spec wording and exists to be compared against the
source-derived `characterInputUpdate`. -/
noncomputable def specNormalize (v : RVec3) : RVec3 :=
  if v.lengthSq = 0 then v else v.normalized

-- ===========================================================================
-- Component data shared by the physics bridge and the scene loader
-- (src/src/components.hpp; LocalTransform/WorldTransform are from the
-- external ecs library, modelled from the spec)
-- ===========================================================================

/-- Rational 3-vector (`ecs::Vec3` as plain component data). -/
structure Vec3 where
  x : ℚ
  y : ℚ
  z : ℚ
deriving DecidableEq

/-- Quaternion stored as `[x, y, z, w]`. -/
structure Quat where
  x : ℚ
  y : ℚ
  z : ℚ
  w : ℚ
deriving DecidableEq

/-- Modelled from the spec: the Transform Store's per-entity local pose
(position/rotation/scale); the `ecs` library defining it is external to the
repository. -/
structure LocalTransform where
  position : Vec3 := ⟨0, 0, 0⟩
  rotation : Quat := ⟨0, 0, 0, 1⟩
  scale : Vec3 := ⟨1, 1, 1⟩
deriving DecidableEq

/-- Modelled from the spec: the derived world matrix of the Transform Store;
physics.cpp reads its translation column entries `m[12..14]`. -/
structure WorldTransform where
  m : Fin 16 → ℚ := fun _ => 0

/-- Body kind (`BodyType`, components.hpp:38). -/
inductive BodyType where
  | Static
  | Kinematic
  | Dynamic
deriving DecidableEq

/-- Authoring rigid-body configuration (`RigidBodyConfig`,
components.hpp:49-55), defaults from the C++ initializers. -/
structure RigidBodyConfig where
  type : BodyType := .Dynamic
  mass : ℚ := 1
  friction : ℚ := 1/2
  restitution : ℚ := 0
  sensor : Bool := false
deriving DecidableEq

/-- Box collider (`BoxCollider`, components.hpp:40-42). -/
structure BoxCollider where
  half_extents : Vec3 := ⟨1/2, 1/2, 1/2⟩
deriving DecidableEq

/-- Sphere collider (`SphereCollider`, components.hpp:44-46). -/
structure SphereCollider where
  radius : ℚ := 1/2
deriving DecidableEq

/-- Render shape kind (`ShapeType`, components.hpp:9). -/
inductive ShapeType where
  | Box
  | Sphere
  | Capsule
deriving DecidableEq

/-- Normalized RGBA colour (`Color4`, components.hpp:12-14). -/
structure Color4 where
  r : ℚ := 1
  g : ℚ := 1
  b : ℚ := 1
  a : ℚ := 1
deriving DecidableEq

/-- Palette constant `Colors::White`. -/
def Colors.White : Color4 := ⟨1, 1, 1, 1⟩

/-- Visual component (`MeshRenderer`, components.hpp:68-72). -/
structure MeshRenderer where
  shape_type : ShapeType := .Box
  color : Color4 := Colors.White
  scale_offset : Vec3 := ⟨1, 1, 1⟩
deriving DecidableEq

/-- Character controller authoring data (`CharacterControllerConfig`,
components.hpp:57-62). -/
structure CharacterControllerConfig where
  height : ℚ := 18/10
  radius : ℚ := 4/10
  mass : ℚ := 70
  max_slope_angle : ℚ := 45
deriving DecidableEq

-- ===========================================================================
-- Body lifecycle bridge (src/src/systems/physics.cpp:11-65)
-- ===========================================================================

/-- Collision shape handed to body creation (`JPH::BoxShape` /
`JPH::SphereShape` as selected in physics.cpp:21-28). -/
inductive JoltShape where
  | box (half_extents : Vec3)
  | sphere (radius : ℚ)
deriving DecidableEq

/-- Jolt motion type (`JPH::EMotionType`). -/
inductive EMotionType where
  | Static
  | Kinematic
  | Dynamic
deriving DecidableEq

/-- Collision layer (`Layers::NON_MOVING` / `Layers::MOVING`). -/
inductive ObjectLayer where
  | NonMoving
  | Moving
deriving DecidableEq

/-- `JPH::BodyCreationSettings` as populated in physics.cpp:47-50. -/
structure BodyCreationSettings where
  shape : JoltShape
  position : Vec3
  rotation : Quat
  motion : EMotionType
  layer : ObjectLayer
  restitution : ℚ
  friction : ℚ
  sensor : Bool
deriving DecidableEq

/-- The shared physics context's body table: `CreateBody` assigns the next
fresh id and `AddBody` activates the body, modelled together as an append. -/
structure PhysicsContext where
  next_id : Nat := 0
  bodies : List (Nat × BodyCreationSettings) := []

/-- An entity's component set: one `Option` slot per component type used by
the systems under verification, `none` meaning the component is absent. -/
structure EntityRec where
  localT : Option LocalTransform := none
  worldT : Option WorldTransform := none
  boxCollider : Option BoxCollider := none
  sphereCollider : Option SphereCollider := none
  meshRenderer : Option MeshRenderer := none
  rigidBody : Option RigidBodyConfig := none
  characterCfg : Option CharacterControllerConfig := none
  rigidBodyHandle : Option Nat := none
  worldTag : Bool := false
  playerTag : Bool := false
  playerInput : Bool := false
  playerState : Bool := false

/-- Attach hook `on_add<RigidBodyConfig>` registered by
`PhysicsSystem::Register` (physics.cpp:12-56). Line 13 guards against an
existing `RigidBodyHandle`; lines 15-17 no-op when the shared physics
context resource is absent; lines 21-28 select the shape (box collider,
else sphere collider, else unit box); lines 30-39 read the initial pose from
the local transform, else from the world matrix translation; lines 41-45 map
body kind to motion type and layer; lines 47-55 create and activate the body
and store the handle. -/
def on_add_rigid_body_config (ctx? : Option PhysicsContext) (e : EntityRec)
    (cfg : RigidBodyConfig) : EntityRec × Option PhysicsContext :=
  if e.rigidBodyHandle.isSome then (e, ctx?)
  else
    match ctx? with
    | none => (e, ctx?)
    | some ctx =>
      let shape : JoltShape :=
        match e.boxCollider with
        | some box => .box box.half_extents
        | none =>
          match e.sphereCollider with
          | some sph => .sphere sph.radius
          | none => .box ⟨1/2, 1/2, 1/2⟩
      let pose : Vec3 × Quat :=
        match e.localT with
        | some lt => (lt.position, lt.rotation)
        | none =>
          match e.worldT with
          | some wt => (⟨wt.m 12, wt.m 13, wt.m 14⟩, ⟨0, 0, 0, 1⟩)
          | none => (⟨0, 0, 0⟩, ⟨0, 0, 0, 1⟩)
      let motion : EMotionType :=
        match cfg.type with
        | .Static => .Static
        | .Kinematic => .Kinematic
        | .Dynamic => .Dynamic
      let layer : ObjectLayer := if cfg.type = .Static then .NonMoving else .Moving
      let settings : BodyCreationSettings :=
        ⟨shape, pose.1, pose.2, motion, layer, cfg.restitution, cfg.friction, cfg.sensor⟩
      ({ e with rigidBodyHandle := some ctx.next_id },
       some { next_id := ctx.next_id + 1, bodies := ctx.bodies ++ [(ctx.next_id, settings)] })

-- ===========================================================================
-- Scene loader (src/src/scene.cpp)
-- ===========================================================================

/-- JSON values as produced by the external nlohmann parser. -/
inductive Json where
  | null
  | bool (b : Bool)
  | num (q : ℚ)
  | str (s : String)
  | arr (xs : List Json)
  | obj (fields : List (String × Json))

/-- Key lookup on a JSON object; `none` for a missing key or a non-object. -/
def Json.find? (j : Json) (k : String) : Option Json :=
  match j with
  | .obj fields => fields.lookup k
  | _ => none

/-- Checked access `j.at(k)`: throws (`error`) when the key is missing or the
value is not an object. -/
def Json.atKey (j : Json) (k : String) : Except Unit Json :=
  match j.find? k with
  | some v => .ok v
  | none => .error ()

/-- Typed extraction `get<float>`: throws on a non-number. -/
def Json.getFloat : Json → Except Unit ℚ
  | .num q => .ok q
  | _ => .error ()

/-- Typed extraction `get<std::string>`: throws on a non-string. -/
def Json.getString : Json → Except Unit String
  | .str s => .ok s
  | _ => .error ()

/-- Typed extraction `get<bool>`: throws on a non-boolean. -/
def Json.getBool : Json → Except Unit Bool
  | .bool b => .ok b
  | _ => .error ()

/-- Constant array indexing `j[i]`; out-of-range and non-array accesses are
modelled as `null` (the subsequent typed extraction then throws). -/
def Json.idx (j : Json) (i : Nat) : Json :=
  match j with
  | .arr xs => xs.getD i .null
  | _ => .null

/-- Defaulted access `j.value(k, d)` for strings: the default when the key is
absent, a typed extraction (which may throw) when present. -/
def Json.valueS (j : Json) (k : String) (d : String) : Except Unit String :=
  match j.find? k with
  | none => .ok d
  | some v => v.getString

/-- Defaulted access `j.value(k, d)` for floats. -/
def Json.valueF (j : Json) (k : String) (d : ℚ) : Except Unit ℚ :=
  match j.find? k with
  | none => .ok d
  | some v => v.getFloat

/-- Defaulted access `j.value(k, d)` for booleans. -/
def Json.valueB (j : Json) (k : String) (d : Bool) : Except Unit Bool :=
  match j.find? k with
  | none => .ok d
  | some v => v.getBool

/-- Range-for iteration over a JSON value, nlohmann semantics: an array
iterates its elements, an object its mapped values, null is an empty range
and any other value a singleton range. -/
def jsonItems : Json → List Json
  | .arr xs => xs
  | .obj fields => fields.map (fun p => p.2)
  | .null => []
  | j => [j]

/-- Helper `parse_vec3` (scene.cpp:16-18). -/
def parse_vec3 (j : Json) : Except Unit Vec3 := do
  let x ← (j.idx 0).getFloat
  let y ← (j.idx 1).getFloat
  let z ← (j.idx 2).getFloat
  return ⟨x, y, z⟩

/-- Helper `parse_quat` (scene.cpp:20-23), stored as `[x, y, z, w]`. -/
def parse_quat (j : Json) : Except Unit Quat := do
  let x ← (j.idx 0).getFloat
  let y ← (j.idx 1).getFloat
  let z ← (j.idx 2).getFloat
  let w ← (j.idx 3).getFloat
  return ⟨x, y, z, w⟩

/-- Helper `parse_color4` (scene.cpp:25-27). -/
def parse_color4 (j : Json) : Except Unit Color4 := do
  let r ← (j.idx 0).getFloat
  let g ← (j.idx 1).getFloat
  let b ← (j.idx 2).getFloat
  let a ← (j.idx 3).getFloat
  return ⟨r, g, b, a⟩

/-- Enum parse `parse_shape` (scene.cpp:29-34): throws on an unknown shape
string. -/
def parse_shape (s : String) : Except Unit ShapeType :=
  if s = "Box" then .ok .Box
  else if s = "Sphere" then .ok .Sphere
  else if s = "Capsule" then .ok .Capsule
  else .error ()

/-- Enum parse `parse_body_type` (scene.cpp:36-41): throws on an unknown
body-kind string. -/
def parse_body_type (s : String) : Except Unit BodyType :=
  if s = "Static" then .ok .Static
  else if s = "Dynamic" then .ok .Dynamic
  else if s = "Kinematic" then .ok .Kinematic
  else .error ()

/-- Error adaptor: a throw inside `spawn_entity` aborts with the entity in
its partially-built shape (the components added before the throw remain,
exactly as the C++ exception leaves the mutated world). -/
def liftE {α : Type} (e : EntityRec) : Except Unit α → Except EntityRec α
  | .ok a => .ok a
  | .error _ => .error e

/-- Step 1 of `spawn_entity` (scene.cpp:51-58): parse transform fields
(defaulting each missing sub-key), then add `LocalTransform` and a
default-constructed `WorldTransform`. -/
def stepTransform (j : Json) (e : EntityRec) : Except EntityRec EntityRec :=
  match j.find? "transform" with
  | none => .ok e
  | some t => do
    let pos ← liftE e (match t.find? "position" with
      | some p => parse_vec3 p
      | none => .ok ⟨0, 0, 0⟩)
    let rot ← liftE e (match t.find? "rotation" with
      | some p => parse_quat p
      | none => .ok ⟨0, 0, 0, 1⟩)
    let scl ← liftE e (match t.find? "scale" with
      | some p => parse_vec3 p
      | none => .ok ⟨1, 1, 1⟩)
    return { e with localT := some ⟨pos, rot, scl⟩, worldT := some {} }

/-- Step 2a of `spawn_entity` (scene.cpp:61-63): box collider. -/
def stepBoxCollider (j : Json) (e : EntityRec) : Except EntityRec EntityRec :=
  match j.find? "box_collider" with
  | none => .ok e
  | some bc => do
    let he ← liftE e (parse_vec3 ((bc.find? "half_extents").getD .null))
    return { e with boxCollider := some ⟨he⟩ }

/-- Step 2b of `spawn_entity` (scene.cpp:64-66): sphere collider. -/
def stepSphereCollider (j : Json) (e : EntityRec) : Except EntityRec EntityRec :=
  match j.find? "sphere_collider" with
  | none => .ok e
  | some sc => do
    let r ← liftE e (((sc.find? "radius").getD .null).getFloat)
    return { e with sphereCollider := some ⟨r⟩ }

/-- Step 3 of `spawn_entity` (scene.cpp:69-75): mesh renderer; the shape
string defaults to "Box" and goes through `parse_shape`, which throws on an
unknown value. -/
def stepMesh (j : Json) (e : EntityRec) : Except EntityRec EntityRec :=
  match j.find? "mesh" with
  | none => .ok e
  | some m => do
    let shape ← liftE e (do
      let s ← m.valueS "shape" "Box"
      parse_shape s)
    let color ← liftE e (match m.find? "color" with
      | some c => parse_color4 c
      | none => .ok Colors.White)
    let scale_offset ← liftE e (match m.find? "scale_offset" with
      | some so => parse_vec3 so
      | none => .ok ⟨1, 1, 1⟩)
    return { e with meshRenderer := some ⟨shape, color, scale_offset⟩ }

/-- Step 4a of `spawn_entity` (scene.cpp:79-88): rigid-body config; the type
string defaults to "Dynamic" and goes through `parse_body_type`, which
throws on an unknown value. -/
def stepRigidBody (j : Json) (e : EntityRec) : Except EntityRec EntityRec :=
  match j.find? "rigid_body" with
  | none => .ok e
  | some rb => do
    let ty ← liftE e (do
      let s ← rb.valueS "type" "Dynamic"
      parse_body_type s)
    let mass ← liftE e (rb.valueF "mass" 1)
    let friction ← liftE e (rb.valueF "friction" (1/2))
    let restitution ← liftE e (rb.valueF "restitution" 0)
    let sensor ← liftE e (rb.valueB "sensor" false)
    return { e with rigidBody := some ⟨ty, mass, friction, restitution, sensor⟩ }

/-- Step 4b of `spawn_entity` (scene.cpp:89-97): character controller
config. -/
def stepCharacter (j : Json) (e : EntityRec) : Except EntityRec EntityRec :=
  match j.find? "character" with
  | none => .ok e
  | some ch => do
    let height ← liftE e (ch.valueF "height" (18/10))
    let radius ← liftE e (ch.valueF "radius" (4/10))
    let mass ← liftE e (ch.valueF "mass" 70)
    let slope ← liftE e (ch.valueF "max_slope_angle" 45)
    return { e with characterCfg := some ⟨height, radius, mass, slope⟩ }

/-- One tag of step 5 (scene.cpp:101-108): `get<std::string>` may throw,
"World" adds `WorldTag`, "Player" adds the player component triple. -/
def applyTag (e : EntityRec) (tj : Json) : Except EntityRec EntityRec := do
  let t ← liftE e tj.getString
  let e := if t = "World" then { e with worldTag := true } else e
  let e := if t = "Player" then
      { e with playerTag := true, playerInput := true, playerState := true }
    else e
  return e

/-- Step 5 of `spawn_entity` (scene.cpp:100-110): fold over the tag list;
tags applied before a throwing tag remain. -/
def stepTags (j : Json) (e : EntityRec) : Except EntityRec EntityRec :=
  match j.find? "tags" with
  | none => .ok e
  | some tags => (jsonItems tags).foldlM applyTag e

/-- Component-population part of `spawn_entity` (scene.cpp:47-111), steps in
source order; an error carries the partially-built entity. -/
def buildEntity (j : Json) : Except EntityRec EntityRec := do
  let e ← stepTransform j {}
  let e ← stepBoxCollider j e
  let e ← stepSphereCollider j e
  let e ← stepMesh j e
  let e ← stepRigidBody j e
  let e ← stepCharacter j e
  stepTags j e

/-- `spawn_entity` (scene.cpp:47-111): `world.create()` happens first, so the
entity exists in the world whether or not a later component parse throws;
the boolean records whether the entity completed without a throw. -/
def spawn_entity (j : Json) : EntityRec × Bool :=
  match buildEntity j with
  | .ok e => (e, true)
  | .error e => (e, false)

/-- The loop of `load_from_string` (scene.cpp:120-122): spawn entities in
order; the first throw aborts the loop (the exception propagates to the
`catch`), leaving every already-spawned entity in the world. -/
def loadEntities : List Json → List EntityRec → List EntityRec × Bool
  | [], w => (w, true)
  | j :: rest, w =>
    match spawn_entity j with
    | (e, true) => loadEntities rest (w ++ [e])
    | (e, false) => (w ++ [e], false)

/-- `SceneLoader::load_from_string` (scene.cpp:117-127). The external
`json::parse` is modelled by the `Option Json` input (`none` = the parser
threw on malformed text). `scene.at("entities")` throws when the key is
missing; any exception is caught and surfaced as `false`, with the world
keeping whatever was inserted before the throw. -/
def load_from_string (input : Option Json) (w : List EntityRec) :
    Bool × List EntityRec :=
  match input with
  | none => (false, w)
  | some scene =>
    match scene.atKey "entities" with
    | .error _ => (false, w)
    | .ok ents =>
      let r := loadEntities (jsonItems ents) w
      (r.2, r.1)

/-- An entity description carrying an unknown enum string: a mesh whose
"shape" field is a string `parse_shape` rejects, or a rigid body whose
"type" field is a string `parse_body_type` rejects. -/
def unknownEnumEntity (j : Json) : Prop :=
  (∃ m sh s, j.find? "mesh" = some m ∧ m.find? "shape" = some sh ∧
    sh.getString = .ok s ∧ parse_shape s = .error ()) ∨
  (∃ rb ty s, j.find? "rigid_body" = some rb ∧ rb.find? "type" = some ty ∧
    ty.getString = .ok s ∧ parse_body_type s = .error ())

-- ===========================================================================
-- Helper lemmas
-- ===========================================================================

/-- Inversion for a successful `Except` bind. -/
theorem bindOk {ε α β : Type} {x : Except ε α} {f : α → Except ε β} {b : β}
    (h : x >>= f = .ok b) : ∃ a, x = .ok a ∧ f a = .ok b := by
  cases x with
  | ok a => exact ⟨a, rfl, h⟩
  | error e => simp [Bind.bind, Except.bind] at h

/-- Normalizing a vector of positive squared length yields a unit vector. -/
theorem normalized_lengthSq (w : RVec3) (hw : 0 < w.lengthSq) :
    w.normalized.lengthSq = 1 := by
  have hsne : Real.sqrt w.lengthSq ≠ 0 := ne_of_gt (Real.sqrt_pos.mpr hw)
  have hms := Real.mul_self_sqrt hw.le
  simp only [RVec3.normalized, RVec3.lengthSq] at *
  field_simp

/-- The prepared forward vector is horizontal and unit length in both
branches of `flattenedForward`. -/
theorem flattenedForward_horizontal_unit (vf : RVec3) :
    (flattenedForward vf).y = 0 ∧ (flattenedForward vf).lengthSq = 1 := by
  rw [flattenedForward]
  simp only [RVec3.setY0]
  split_ifs with h
  · constructor
    · simp [RVec3.normalized]
    · exact normalized_lengthSq _ (lt_trans (by norm_num) h)
  · norm_num [RVec3.lengthSq]

/-- A successful `stepMesh` on an entity whose mesh carries an unknown shape
string is impossible: the parse throws first. -/
theorem stepMesh_ok_no_unknown_shape {j : Json} {e₀ e₁ : EntityRec}
    {m sh : Json} {s : String}
    (hm : j.find? "mesh" = some m) (hsh : m.find? "shape" = some sh)
    (hs : sh.getString = .ok s) (hbad : parse_shape s = .error ())
    (hok : stepMesh j e₀ = .ok e₁) : False := by
  rw [stepMesh] at hok
  simp only [hm] at hok
  have hv : m.valueS "shape" "Box" = .ok s := by rw [Json.valueS, hsh]; exact hs
  have hinner : ((do
      let s ← m.valueS "shape" "Box"
      parse_shape s : Except Unit ShapeType)) = .error () := by
    rw [show ((do
        let s ← m.valueS "shape" "Box"
        parse_shape s : Except Unit ShapeType)) = m.valueS "shape" "Box" >>= parse_shape from rfl]
    rw [hv]
    simpa [Bind.bind, Except.bind] using hbad
  obtain ⟨shape, hx, -⟩ := bindOk hok
  rw [hinner] at hx
  simp [liftE] at hx

/-- A successful `stepRigidBody` on an entity whose rigid body carries an
unknown body-kind string is impossible. -/
theorem stepRigidBody_ok_no_unknown_type {j : Json} {e₀ e₁ : EntityRec}
    {rb ty : Json} {s : String}
    (hrb : j.find? "rigid_body" = some rb) (hty : rb.find? "type" = some ty)
    (hs : ty.getString = .ok s) (hbad : parse_body_type s = .error ())
    (hok : stepRigidBody j e₀ = .ok e₁) : False := by
  rw [stepRigidBody] at hok
  simp only [hrb] at hok
  have hv : rb.valueS "type" "Dynamic" = .ok s := by rw [Json.valueS, hty]; exact hs
  have hinner : ((do
      let s ← rb.valueS "type" "Dynamic"
      parse_body_type s : Except Unit BodyType)) = .error () := by
    rw [show ((do
        let s ← rb.valueS "type" "Dynamic"
        parse_body_type s : Except Unit BodyType)) =
      rb.valueS "type" "Dynamic" >>= parse_body_type from rfl]
    rw [hv]
    simpa [Bind.bind, Except.bind] using hbad
  obtain ⟨t, hx, -⟩ := bindOk hok
  rw [hinner] at hx
  simp [liftE] at hx

/-- A fully successful entity build implies both enum strings (when present)
were known. -/
theorem buildEntity_ok_no_unknown_enum {j : Json} {e : EntityRec}
    (hok : buildEntity j = .ok e) : ¬ unknownEnumEntity j := by
  rw [buildEntity] at hok
  obtain ⟨e₁, h1, hok⟩ := bindOk hok
  obtain ⟨e₂, h2, hok⟩ := bindOk hok
  obtain ⟨e₃, h3, hok⟩ := bindOk hok
  obtain ⟨e₄, h4, hok⟩ := bindOk hok
  obtain ⟨e₅, h5, hok⟩ := bindOk hok
  obtain ⟨e₆, h6, hok⟩ := bindOk hok
  rintro (⟨m, sh, s, hm, hsh, hs, hbad⟩ | ⟨rb, ty, s, hrb, hty, hs, hbad⟩)
  · exact stepMesh_ok_no_unknown_shape hm hsh hs hbad h4
  · exact stepRigidBody_ok_no_unknown_type hrb hty hs hbad h5

/-- Spawning an entity description with an unknown enum string fails. -/
theorem spawn_entity_unknown_enum_fails {j : Json} (h : unknownEnumEntity j) :
    (spawn_entity j).2 = false := by
  rw [spawn_entity]
  cases hb : buildEntity j with
  | ok e => exact absurd h (buildEntity_ok_no_unknown_enum hb)
  | error e => rfl

/-- The spawn loop only ever appends to the world. -/
theorem loadEntities_appends (es : List Json) (w : List EntityRec) :
    ∃ tail, (loadEntities es w).1 = w ++ tail := by
  induction es generalizing w with
  | nil => exact ⟨[], by simp [loadEntities]⟩
  | cons j rest ih =>
    rw [loadEntities]
    cases hs : spawn_entity j with
    | mk e ok =>
      cases ok with
      | true =>
        obtain ⟨t, ht⟩ := ih (w ++ [e])
        exact ⟨[e] ++ t, by simp only [ht, List.append_assoc]⟩
      | false => exact ⟨[e], rfl⟩

/-- The spawn loop reports failure when some listed entity fails to spawn. -/
theorem loadEntities_bad_fails {es : List Json} (w : List EntityRec)
    (h : ∃ j ∈ es, (spawn_entity j).2 = false) :
    (loadEntities es w).2 = false := by
  induction es generalizing w with
  | nil => simp at h
  | cons j rest ih =>
    rw [loadEntities]
    obtain ⟨b, hmem, hb⟩ := h
    cases hs : spawn_entity j with
    | mk e ok =>
      cases ok with
      | true =>
        rcases List.mem_cons.mp hmem with heq | hrest
        · subst heq
          rw [hs] at hb
          exact absurd hb (by simp)
        · exact ih (w ++ [e]) ⟨b, hrest, hb⟩
      | false => rfl

/-- Exact shape of the world after a failing load: prior entities, then the
successfully spawned prefix, then the partially-built failing entity — no
rollback of anything. -/
theorem loadEntities_no_rollback (w : List EntityRec) (good : List Json)
    (bad : Json) (rest : List Json)
    (hgood : ∀ j ∈ good, (spawn_entity j).2 = true)
    (hbad : (spawn_entity bad).2 = false) :
    loadEntities (good ++ bad :: rest) w =
      (w ++ good.map (fun j => (spawn_entity j).1) ++ [(spawn_entity bad).1], false) := by
  induction good generalizing w with
  | nil =>
    rw [List.nil_append, loadEntities]
    cases hs : spawn_entity bad with
    | mk e ok =>
      rw [hs] at hbad
      simp only at hbad
      subst hbad
      simp [hs]
  | cons g gs ih =>
    rw [List.cons_append, loadEntities]
    cases hs : spawn_entity g with
    | mk e ok =>
      have hok : ok = true := by
        have := hgood g (List.mem_cons_self g gs)
        rw [hs] at this
        exact this
      subst hok
      show loadEntities (gs ++ bad :: rest) (w ++ [e]) = _
      rw [ih (w ++ [e]) (fun j hj => hgood j (List.mem_cons_of_mem g hj))]
      simp [hs, List.append_assoc]

-- ===========================================================================
-- Claims
-- ===========================================================================

/-- Claim C1 (code_bug evaluation): at a tick that both lands (prior mode
Airborne, ground contact true) and fires a jump (`jump_impulse` ends
positive), `CharacterStateSystem::Update` leaves the JumpEvent and LandEvent
queues empty — it emits no events at all, although the spec (and the event
headers) require exactly one `LandEvent` on an Airborne-to-Grounded
transition and exactly one `JumpEvent` whenever `jump_impulse > 0`. -/
theorem characterStateTick_emits_no_events :
    ((⟨.Airborne, 0, 3/10, 0⟩ : CharacterState).mode = .Airborne) ∧
    (characterStateTick true (16/1000) jumpIntent ⟨.Airborne, 0, 3/10, 0⟩ {} {}).1.mode = .Grounded ∧
    0 < (characterStateTick true (16/1000) jumpIntent ⟨.Airborne, 0, 3/10, 0⟩ {} {}).1.jump_impulse ∧
    (characterStateTick true (16/1000) jumpIntent ⟨.Airborne, 0, 3/10, 0⟩ {} {}).2.1.readQ = [] ∧
    (characterStateTick true (16/1000) jumpIntent ⟨.Airborne, 0, 3/10, 0⟩ {} {}).2.2.readQ = [] := by
  norm_num [characterStateTick, apply_state, ground_update, can_jump, can_coyote,
    jumpIntent, Events.readQ]

/-- Claim C2: evaluating a state with `jump_count = 0` and `air_time < 0.2`
airborne with a jump request sets `jump_impulse` to 12 and leaves
`jump_count = 2` — the coyote-window jump consumes both charges at once. -/
theorem apply_state_coyote_consumes_both (dt : ℚ) (intent : CharacterIntent)
    (s : CharacterState) (hc : s.jump_count = 0) (_ha : s.air_time < 2/10)
    (hj : intent.jump_requested = true) :
    (apply_state false dt intent s).jump_impulse = 12 ∧
    (apply_state false dt intent s).jump_count = 2 := by
  simp [apply_state, ground_update, can_jump, can_coyote, hc, hj]

/-- Witness for C2 at the spec's own test point (`air_time = 0.1`,
`dt = 0.016`). -/
theorem apply_state_coyote_consumes_both_check :
    (apply_state false (16/1000) jumpIntent ⟨.Airborne, 0, 1/10, 0⟩).jump_impulse = 12 ∧
    (apply_state false (16/1000) jumpIntent ⟨.Airborne, 0, 1/10, 0⟩).jump_count = 2 :=
  apply_state_coyote_consumes_both (16/1000) jumpIntent ⟨.Airborne, 0, 1/10, 0⟩ rfl
    (by norm_num) rfl

/-- Claim C3: from the default grounded state, a grounded jump request gives
impulse 12 and count 1; a second airborne request gives impulse 10 and count
2; a third airborne request gives impulse 0 and leaves the count at 2. -/
theorem apply_state_jump_budget (dt₁ dt₂ dt₃ : ℚ) (intent : CharacterIntent)
    (hj : intent.jump_requested = true) :
    (apply_state true dt₁ intent {}).jump_impulse = 12 ∧
    (apply_state true dt₁ intent {}).jump_count = 1 ∧
    (apply_state false dt₂ intent (apply_state true dt₁ intent {})).jump_impulse = 10 ∧
    (apply_state false dt₂ intent (apply_state true dt₁ intent {})).jump_count = 2 ∧
    (apply_state false dt₃ intent (apply_state false dt₂ intent
      (apply_state true dt₁ intent {}))).jump_impulse = 0 ∧
    (apply_state false dt₃ intent (apply_state false dt₂ intent
      (apply_state true dt₁ intent {}))).jump_count = 2 := by
  simp [apply_state, ground_update, can_jump, can_coyote, hj]

/-- Witness for C3 at `dt = 0.016` for all three ticks. -/
theorem apply_state_jump_budget_check :
    (apply_state true (16/1000) jumpIntent {}).jump_impulse = 12 ∧
    (apply_state true (16/1000) jumpIntent {}).jump_count = 1 ∧
    (apply_state false (16/1000) jumpIntent
      (apply_state true (16/1000) jumpIntent {})).jump_impulse = 10 ∧
    (apply_state false (16/1000) jumpIntent
      (apply_state true (16/1000) jumpIntent {})).jump_count = 2 ∧
    (apply_state false (16/1000) jumpIntent (apply_state false (16/1000) jumpIntent
      (apply_state true (16/1000) jumpIntent {}))).jump_impulse = 0 ∧
    (apply_state false (16/1000) jumpIntent (apply_state false (16/1000) jumpIntent
      (apply_state true (16/1000) jumpIntent {}))).jump_count = 2 :=
  apply_state_jump_budget (16/1000) (16/1000) (16/1000) jumpIntent rfl

/-- Counterexample to claim C4 as stated: with camera forward `(0,0,1)`,
camera right `(1,0,0)` and move axis `(1,1)`, the translator writes
`move_dir = (1,0,1)`, whose squared length is 2 — a non-zero weighted sum
that is not a unit vector, and not equal to the spec's
`normalize(forward*move.y + right*move.x)`. -/
theorem characterInput_move_dir_not_normalized :
    (characterInputUpdate ⟨0, 0, 1⟩ ⟨1, 0, 0⟩ { move_input := ⟨1, 1⟩ }).move_dir = ⟨1, 0, 1⟩ ∧
    RVec3.lengthSq ⟨1, 0, 1⟩ = 2 ∧
    (characterInputUpdate ⟨0, 0, 1⟩ ⟨1, 0, 0⟩ { move_input := ⟨1, 1⟩ }).move_dir ≠
      specNormalize ((characterInputUpdate ⟨0, 0, 1⟩ ⟨1, 0, 0⟩ { move_input := ⟨1, 1⟩ }).move_dir) := by
  have hf : flattenedForward ⟨0, 0, 1⟩ = ⟨0, 0, 1⟩ := by
    rw [flattenedForward]
    simp only [RVec3.setY0]
    rw [if_pos (by norm_num [RVec3.lengthSq])]
    norm_num [RVec3.normalized, RVec3.lengthSq, Real.sqrt_one]
  have hr : flattenedRight ⟨0, 0, 1⟩ ⟨1, 0, 0⟩ = ⟨1, 0, 0⟩ := by
    rw [flattenedRight]
    simp only [RVec3.setY0]
    rw [if_pos (by norm_num [RVec3.lengthSq])]
    norm_num [RVec3.normalized, RVec3.lengthSq, Real.sqrt_one]
  have hm : (characterInputUpdate ⟨0, 0, 1⟩ ⟨1, 0, 0⟩ { move_input := ⟨1, 1⟩ }).move_dir
      = ⟨1, 0, 1⟩ := by
    show ((RVec3.smul (1:ℝ) (flattenedForward ⟨0, 0, 1⟩)).add
      (RVec3.smul (1:ℝ) (flattenedRight ⟨0, 0, 1⟩ ⟨1, 0, 0⟩))) = ⟨1, 0, 1⟩
    rw [hf, hr]
    norm_num [RVec3.smul, RVec3.add]
  refine ⟨hm, by norm_num [RVec3.lengthSq], ?_⟩
  rw [hm]
  have hsqrt2 : (1:ℝ) < Real.sqrt 2 := by
    nlinarith [Real.sq_sqrt (show (0:ℝ) ≤ 2 by norm_num), Real.sqrt_nonneg 2]
  have hs2pos : (0:ℝ) < Real.sqrt 2 := lt_trans one_pos hsqrt2
  rw [specNormalize, if_neg (by norm_num [RVec3.lengthSq])]
  intro h
  have hx : (1:ℝ) = 1 / Real.sqrt (RVec3.lengthSq ⟨1, 0, 1⟩) := congrArg RVec3.x h
  rw [show RVec3.lengthSq ⟨1, 0, 1⟩ = 2 by norm_num [RVec3.lengthSq]] at hx
  have hlt : 1 / Real.sqrt 2 < 1 := by
    rw [div_lt_one hs2pos]; exact hsqrt2
  linarith [hx ▸ hlt]

/-- Claim C4 as amended: the translator writes `move_dir` as the raw
world-space weighted sum `forward*move.y + right*move.x` with no final
normalization, and writes `look_dir` as the flattened forward vector, which
is always horizontal and unit length; the jump flag passes through. -/
theorem characterInput_move_dir_formula (vf vr : RVec3) (input : PlayerInput) :
    (characterInputUpdate vf vr input).move_dir =
      (RVec3.smul input.move_input.y (flattenedForward vf)).add
        (RVec3.smul input.move_input.x (flattenedRight vf vr)) ∧
    (characterInputUpdate vf vr input).look_dir = flattenedForward vf ∧
    (flattenedForward vf).y = 0 ∧
    RVec3.lengthSq (flattenedForward vf) = 1 ∧
    (characterInputUpdate vf vr input).jump_requested = input.jump :=
  ⟨rfl, rfl, (flattenedForward_horizontal_unit vf).1,
   (flattenedForward_horizontal_unit vf).2, rfl⟩

/-- Counterexample to claim C5 as stated: a grounded jump request leaves
`jump_impulse = 12 ≠ 0` immediately after `apply_state` returns. -/
theorem apply_state_impulse_nonzero_after_jump :
    (apply_state true (16/1000) jumpIntent {}).jump_impulse = 12 ∧ (12:ℚ) ≠ 0 := by
  norm_num [apply_state, ground_update, can_jump, can_coyote, jumpIntent]

/-- Claim C5 as amended: whatever the prior state (in particular any stale
`jump_impulse`), `jump_impulse` is 0 after `apply_state` whenever no jump
fires in that call (`jump_requested && can_jump` false). -/
theorem apply_state_impulse_zero_when_no_jump_fires (og : Bool) (dt : ℚ)
    (intent : CharacterIntent) (s : CharacterState)
    (h : (intent.jump_requested &&
      can_jump og (ground_update og dt { s with jump_impulse := 0 })) = false) :
    (apply_state og dt intent s).jump_impulse = 0 := by
  simp only [apply_state, h, if_neg, Bool.false_eq_true, ite_false]
  cases og <;> simp [ground_update]

/-- Witness for the amended C5: a stale impulse of 99 is cleared on an
airborne tick with both jumps spent, even though the jump button is held. -/
theorem apply_state_impulse_zero_when_no_jump_fires_check :
    (apply_state false (16/1000) jumpIntent ⟨.Airborne, 2, 1/2, 99⟩).jump_impulse = 0 :=
  apply_state_impulse_zero_when_no_jump_fires false (16/1000) jumpIntent
    ⟨.Airborne, 2, 1/2, 99⟩ (by norm_num [can_jump, can_coyote, ground_update, jumpIntent])

/-- Counterexample to claim C6 as stated: with `jump_requested = false`, a
grounded evaluation of a prior state with `jump_count = 2` resets
`jump_count` to 0, so the call does change `jump_count`. -/
theorem apply_state_grounded_reset_changes_count :
    ((⟨.Airborne, 2, 1/2, 0⟩ : CharacterState).jump_count = 2) ∧
    (({} : CharacterIntent).jump_requested = false) ∧
    (apply_state true (16/1000) {} ⟨.Airborne, 2, 1/2, 0⟩).jump_count = 0 ∧ (0:Int) ≠ 2 := by
  norm_num [apply_state, ground_update, can_jump, can_coyote]

/-- Claim C6 as amended: with `jump_requested = false`, `apply_state` never
produces a non-zero impulse and changes `jump_count` only through the
grounded reset: an airborne evaluation leaves `jump_count` unchanged, a
grounded evaluation sets it to 0. -/
theorem apply_state_no_request_effect (og : Bool) (dt : ℚ)
    (intent : CharacterIntent) (s : CharacterState)
    (h : intent.jump_requested = false) :
    (apply_state og dt intent s).jump_impulse = 0 ∧
    (og = false → (apply_state og dt intent s).jump_count = s.jump_count) ∧
    (og = true → (apply_state og dt intent s).jump_count = 0) := by
  cases og <;> simp [apply_state, ground_update, h]

/-- Witness for the amended C6 on an airborne tick with one jump spent. -/
theorem apply_state_no_request_effect_check :
    (apply_state false (16/1000) {} ⟨.Airborne, 1, 1/2, 5⟩).jump_impulse = 0 ∧
    (apply_state false (16/1000) {} ⟨.Airborne, 1, 1/2, 5⟩).jump_count = 1 :=
  ⟨(apply_state_no_request_effect false (16/1000) {} ⟨.Airborne, 1, 1/2, 5⟩ rfl).1,
   (apply_state_no_request_effect false (16/1000) {} ⟨.Airborne, 1, 1/2, 5⟩ rfl).2.1 rfl⟩

/-- Claim C7: attaching a `RigidBodyConfig` to an entity that already owns a
`RigidBodyHandle` is a guarded no-op: the hook returns before creating any
body, leaving the entity (its handle included) and the physics context
exactly unchanged. -/
theorem on_add_rigid_body_double_attach_noop (ctx? : Option PhysicsContext)
    (e : EntityRec) (cfg : RigidBodyConfig) (id : Nat)
    (h : e.rigidBodyHandle = some id) :
    on_add_rigid_body_config ctx? e cfg = (e, ctx?) := by
  simp [on_add_rigid_body_config, h]

/-- Witness for C7: re-attaching a config to an entity holding handle 3
changes nothing. -/
theorem on_add_rigid_body_double_attach_noop_check :
    on_add_rigid_body_config (some {}) { rigidBodyHandle := some 3 } {} =
      ({ rigidBodyHandle := some 3 }, some {}) :=
  on_add_rigid_body_double_attach_noop (some {}) { rigidBodyHandle := some 3 } {} 3 rfl

/-- Claim C8: `load_from_string` returns false on malformed JSON (leaving the
world untouched); it only ever appends to the world (no rollback); an
unknown shape-kind or body-kind string among the scene's entities forces a
false result; and on such a failure the world holds exactly the prior
entities, the successfully spawned prefix, and the partially-built failing
entity. -/
theorem load_from_string_failure_semantics :
    (∀ w, load_from_string none w = (false, w)) ∧
    (∀ (inp : Option Json) (w : List EntityRec),
      ∃ tail, (load_from_string inp w).2 = w ++ tail) ∧
    (∀ (w : List EntityRec) (scene ents : Json),
      scene.atKey "entities" = .ok ents →
      (∃ j ∈ jsonItems ents, unknownEnumEntity j) →
      (load_from_string (some scene) w).1 = false) ∧
    (∀ (w : List EntityRec) (good : List Json) (bad : Json) (rest : List Json),
      (∀ j ∈ good, (spawn_entity j).2 = true) → (spawn_entity bad).2 = false →
      loadEntities (good ++ bad :: rest) w =
        (w ++ good.map (fun j => (spawn_entity j).1) ++ [(spawn_entity bad).1], false)) := by
  refine ⟨fun w => rfl, ?_, ?_, loadEntities_no_rollback⟩
  · intro inp w
    cases inp with
    | none => exact ⟨[], by simp [load_from_string]⟩
    | some scene =>
      rw [load_from_string]
      cases ha : scene.atKey "entities" with
      | error u => exact ⟨[], by simp⟩
      | ok ents => exact loadEntities_appends (jsonItems ents) w
  · intro w scene ents ha hbad
    rw [load_from_string, ha]
    exact loadEntities_bad_fails w
      (by obtain ⟨j, hj, hu⟩ := hbad; exact ⟨j, hj, spawn_entity_unknown_enum_fails hu⟩)

/-- Witness for C8: a one-entity scene whose mesh shape is the unknown
string "Pyramid" makes the loader return false. -/
theorem load_from_string_failure_semantics_check :
    (load_from_string
      (some (Json.obj [("entities",
        Json.arr [Json.obj [("mesh", Json.obj [("shape", Json.str "Pyramid")])]])]))
      []).1 = false :=
  load_from_string_failure_semantics.2.2.1 []
    (Json.obj [("entities",
      Json.arr [Json.obj [("mesh", Json.obj [("shape", Json.str "Pyramid")])]])])
    (Json.arr [Json.obj [("mesh", Json.obj [("shape", Json.str "Pyramid")])]])
    rfl
    ⟨Json.obj [("mesh", Json.obj [("shape", Json.str "Pyramid")])], by simp [jsonItems],
     Or.inl ⟨Json.obj [("shape", Json.str "Pyramid")], Json.str "Pyramid", "Pyramid",
       rfl, rfl, rfl, rfl⟩⟩

/-- Claim C9: `apply_state` preserves the state invariant
`0 ≤ jump_count ≤ 2 ∧ 0 ≤ air_time` for every input with `dt ≥ 0`. -/
theorem apply_state_preserves_invariant (og : Bool) (dt : ℚ)
    (intent : CharacterIntent) (s : CharacterState)
    (h0 : 0 ≤ s.jump_count) (h2 : s.jump_count ≤ 2) (ha : 0 ≤ s.air_time) (hdt : 0 ≤ dt) :
    0 ≤ (apply_state og dt intent s).jump_count ∧
    (apply_state og dt intent s).jump_count ≤ 2 ∧
    0 ≤ (apply_state og dt intent s).air_time := by
  have hg0 : 0 ≤ (ground_update og dt { s with jump_impulse := 0 }).jump_count := by
    cases og
    · simpa [ground_update] using h0
    · simp [ground_update]
  have hg2 : (ground_update og dt { s with jump_impulse := 0 }).jump_count ≤ 2 := by
    cases og
    · simpa [ground_update] using h2
    · simp [ground_update]
  have hga : 0 ≤ (ground_update og dt { s with jump_impulse := 0 }).air_time := by
    cases og
    · simpa [ground_update] using add_nonneg ha hdt
    · simp [ground_update]
  rw [apply_state]
  set g := ground_update og dt { s with jump_impulse := 0 } with hgdef
  by_cases hcond : (intent.jump_requested && can_jump og g) = true
  · rw [if_pos hcond]
    by_cases hz : g.jump_count = 0
    · by_cases hog : og = true <;> simp [hz, hog, hga]
    · have hcoy : can_coyote g = false := by simp [can_coyote, hz]
      have hogf : og = false := by
        by_contra hbad
        rw [Bool.not_eq_false] at hbad
        subst hbad
        exact hz (by simp [hgdef, ground_update])
      have hlt : g.jump_count < 2 := by
        have hcj := hcond
        simp only [Bool.and_eq_true] at hcj
        have := hcj.2
        rw [can_jump, hogf, hcoy] at this
        simpa using this
      simp [hz, hga]
      omega
  · rw [if_neg hcond]
    exact ⟨hg0, hg2, hga⟩

/-- Witness for C9 on an airborne jump tick from `jump_count = 1`. -/
theorem apply_state_preserves_invariant_check :
    0 ≤ (apply_state false (16/1000) jumpIntent ⟨.Airborne, 1, 1/2, 0⟩).jump_count ∧
    (apply_state false (16/1000) jumpIntent ⟨.Airborne, 1, 1/2, 0⟩).jump_count ≤ 2 ∧
    0 ≤ (apply_state false (16/1000) jumpIntent ⟨.Airborne, 1, 1/2, 0⟩).air_time :=
  apply_state_preserves_invariant false (16/1000) jumpIntent ⟨.Airborne, 1, 1/2, 0⟩
    (by norm_num) (by norm_num) (by norm_num) (by norm_num)

/-- Claim C10: airborne with `jump_count = 0` and the coyote window already
expired (`air_time ≥ 0.2`, `dt ≥ 0`), a jump request still fires: the coyote
check is false, eligibility holds through the `jump_count < 2` clause, the
impulse is the full first-jump 12, and `jump_count` becomes 2. -/
theorem apply_state_expired_coyote_full_jump (dt : ℚ) (intent : CharacterIntent)
    (s : CharacterState) (hc : s.jump_count = 0) (ha : 2/10 ≤ s.air_time) (hdt : 0 ≤ dt)
    (hj : intent.jump_requested = true) :
    can_coyote (ground_update false dt { s with jump_impulse := 0 }) = false ∧
    can_jump false (ground_update false dt { s with jump_impulse := 0 }) = true ∧
    (apply_state false dt intent s).jump_impulse = 12 ∧
    (apply_state false dt intent s).jump_count = 2 := by
  have hexp : ¬ (s.air_time + dt < 2/10) := by linarith
  refine ⟨by simp [can_coyote, ground_update, hc, hexp], ?_, ?_, ?_⟩ <;>
    simp [apply_state, can_jump, can_coyote, ground_update, hc, hj, hexp]

/-- Witness for C10 at `air_time = 0.3`, `dt = 0.016`. -/
theorem apply_state_expired_coyote_full_jump_check :
    can_coyote (ground_update false (16/1000)
      { (⟨.Airborne, 0, 3/10, 0⟩ : CharacterState) with jump_impulse := 0 }) = false ∧
    can_jump false (ground_update false (16/1000)
      { (⟨.Airborne, 0, 3/10, 0⟩ : CharacterState) with jump_impulse := 0 }) = true ∧
    (apply_state false (16/1000) jumpIntent ⟨.Airborne, 0, 3/10, 0⟩).jump_impulse = 12 ∧
    (apply_state false (16/1000) jumpIntent ⟨.Airborne, 0, 3/10, 0⟩).jump_count = 2 :=
  apply_state_expired_coyote_full_jump (16/1000) jumpIntent ⟨.Airborne, 0, 3/10, 0⟩ rfl
    (by norm_num) (by norm_num) rfl
